import Mathlib

/-!
Verification of the docbok_server AI service (src/ai_service/ai_engine.py).

The Python module implements a symptom-to-diagnosis pipeline:
spelling correction (external), tokenization, a greedy autoregressive
decode loop over a transformer (the numeric model is treated as an
abstract next-token oracle, per the spec which treats it as a loadable
black box), a rule-based diagnosis correction engine
(`_apply_medical_logic`), and a templated response composer
(`_format_polite_response`).

Strings are modelled by Lean `String` (a list of characters).
Python `needle in haystack` is modelled by `pyContains`,
Python `str.lower()` by `pyLower` (ASCII lowering, which coincides with
Python on the ASCII texts and rule phrases involved),
Python `str.strip()` by `pyStrip`, and Python `str.title()` by `pyTitle`.
The nondeterministic `random.choice` over the three opener templates is
modelled by an explicit index `choice : Fin 3`, and the fallible
collaborators (TextBlob spelling correction, the torch model forward
pass) by `Except String`-valued parameters, so that the Python
`try/except` boundary becomes an explicit case analysis.
-/

/-- Substring test on character lists: `containsSubstring h n = true` iff
`n` occurs contiguously inside `h`.  Models Python `n in h` for strings. -/
def containsSubstring : List Char → List Char → Bool
  | [], needle => needle.isEmpty
  | c :: rest, needle => needle.isPrefixOf (c :: rest) || containsSubstring rest needle

/-- Python `needle in haystack` on strings. -/
def pyContains (haystack needle : String) : Bool :=
  containsSubstring haystack.data needle.data

/-- Python `str.lower()` (ASCII model, as in `Char.toLower`). -/
def pyLower (s : String) : String :=
  ⟨s.data.map Char.toLower⟩

/-- Python whitespace test used by `str.strip()` and `str.split()`
(ASCII whitespace). -/
def pyIsSpace (c : Char) : Bool :=
  c == ' ' || c == '\t' || c == '\n' || c == '\r' || c == '\x0b' || c == '\x0c'

/-- Python `str.strip()`: remove leading and trailing whitespace. -/
def pyStrip (s : String) : String :=
  ⟨((s.data.dropWhile pyIsSpace).reverse.dropWhile pyIsSpace).reverse⟩

/-- One pass of Python `str.title()`: the boolean records whether the
previous character was alphabetic. -/
def pyTitleAux : Bool → List Char → List Char
  | _, [] => []
  | prevAlpha, c :: cs =>
    if c.isAlpha then
      (if prevAlpha then c.toLower else c.toUpper) :: pyTitleAux true cs
    else
      c :: pyTitleAux false cs

/-- Python `str.title()` (ASCII model). -/
def pyTitle (s : String) : String :=
  ⟨pyTitleAux false s.data⟩

/-- Splitting on whitespace runs with no empty pieces, Python `str.split()`
with no argument; the accumulator holds the current word reversed. -/
def pySplitAux : List Char → List Char → List String
  | [], acc => if acc.isEmpty then [] else [⟨acc.reverse⟩]
  | c :: cs, acc =>
    if pyIsSpace c then
      if acc.isEmpty then pySplitAux cs [] else (⟨acc.reverse⟩ : String) :: pySplitAux cs []
    else
      pySplitAux cs (c :: acc)

/-- Python `str.split()` with no argument. -/
def pySplit (s : String) : List String :=
  pySplitAux s.data []

/-- The diagnosis correction engine `SymptomPredictor._apply_medical_logic`
(src/ai_service/ai_engine.py lines 180-267), embedded clause by clause.
Python falls through a block whose outer condition held but whose inner
conditions all failed (the spondylosis, fever, headache and joint blocks);
here each `return` statement becomes one `if` whose condition is the
conjunction of the guards on the path to that `return`. -/
def apply_medical_logic (input_text prediction : String) : String :=
  let text := pyLower input_text
  let pred := pyLower prediction
  -- 0. RED-FLAG OVERRIDES (Safety First)
  if pyContains text "chest pain" || pyContains text "severe breath" ||
      pyContains text "unable to breathe" then "bronchial asthma"
  else if pyContains text "unconscious" || pyContains text "faint" ||
      pyContains text "seizure" then "viral fever"
  -- 1. SPONDYLOSIS SAFEGUARD
  else if pyContains pred "spondylosis" &&
      (pyContains text "fever" || pyContains text "temperature" ||
       pyContains text "chills") then "viral fever"
  else if pyContains pred "spondylosis" &&
      (pyContains text "vomit" || pyContains text "nausea" ||
       pyContains text "diarrhea" || pyContains text "loose motion") then "stomach infection"
  else if pyContains pred "spondylosis" &&
      (pyContains text "itch" && pyContains text "rash") then "fungal infection"
  else if pyContains pred "spondylosis" && pyContains text "breath" then "bronchial asthma"
  -- 2. JAUNDICE LOGIC (Strict)
  else if (pyContains text "yellow" && pyContains text "skin") ||
      pyContains text "yellow eyes" then
    if pyContains text "urine" || pyContains text "dark urine" ||
        pyContains text "fatigue" || pyContains text "abdominal pain" then "jaundice"
    else "jaundice"
  -- 3. MALARIA vs VIRAL FEVER
  else if pyContains text "fever" &&
      (pyContains text "shiver" || pyContains text "chills" ||
       pyContains text "sweating cycles") then "malaria"
  else if pyContains text "fever" &&
      (pyContains text "body ache" || pyContains text "headache" ||
       pyContains text "weakness") then "viral fever"
  -- 4. DENGUE CHECK
  else if pyContains text "fever" &&
      (pyContains text "platelet" || pyContains text "joint pain" ||
       pyContains text "eye pain") then "dengue"
  -- 5. ASTHMA vs INFECTION
  else if (pyContains text "breath" || pyContains text "wheezing" ||
      pyContains text "tight chest") && !pyContains text "fever" then "bronchial asthma"
  -- 6. STOMACH ISSUES
  else if pyContains text "vomit" || pyContains text "nausea" ||
      pyContains text "loose motion" || pyContains text "diarrhea" then
    if pyContains text "fever" then "stomach infection" else "food poisoning"
  -- 7. HEADACHE LOGIC
  else if pyContains text "headache" &&
      (pyContains text "light" || pyContains text "noise" ||
       pyContains text "dark room" || pyContains text "throbbing") then "migraine"
  else if pyContains text "headache" && pyContains text "fever" then "viral fever"
  -- 8. JOINT & MUSCLE LOGIC
  else if (pyContains text "joint pain" || pyContains text "swelling" ||
      pyContains text "stiffness") &&
      (pyContains text "morning" || pyContains text "chronic") then "arthritis"
  else if (pyContains text "joint pain" || pyContains text "swelling" ||
      pyContains text "stiffness") && pyContains text "fever" then "viral fever"
  -- 9. FALLBACK PROTECTION
  else prediction

/-- Firing condition of spec rule 1 (safety overrides, source lines 187-191):
either red-flag line returns. -/
def specRule1Fires (input_text : String) : Bool :=
  let text := pyLower input_text
  (pyContains text "chest pain" || pyContains text "severe breath" ||
   pyContains text "unable to breathe") ||
  (pyContains text "unconscious" || pyContains text "faint" ||
   pyContains text "seizure")

/-- Firing condition of spec rule 2 (spondylosis safeguard, source lines
196-204): the raw prediction contains "spondylosis" and one of the four
inner guards holds, so some `return` in the block is reached. -/
def specRule2Fires (input_text prediction : String) : Bool :=
  let text := pyLower input_text
  let pred := pyLower prediction
  pyContains pred "spondylosis" &&
    ((pyContains text "fever" || pyContains text "temperature" ||
      pyContains text "chills") ||
     (pyContains text "vomit" || pyContains text "nausea" ||
      pyContains text "diarrhea" || pyContains text "loose motion") ||
     (pyContains text "itch" && pyContains text "rash") ||
     pyContains text "breath")

/-- Firing condition of spec rule 3 (jaundice, source lines 209-213):
the outer guard alone, since both inner branches return "jaundice". -/
def specRule3Fires (input_text : String) : Bool :=
  let text := pyLower input_text
  (pyContains text "yellow" && pyContains text "skin") ||
  pyContains text "yellow eyes"

/-- Firing condition of spec rule 4 (fever disambiguation, source lines
218-222): "fever" plus one of the two sub-patterns. -/
def specRule4Fires (input_text : String) : Bool :=
  let text := pyLower input_text
  pyContains text "fever" &&
    ((pyContains text "shiver" || pyContains text "chills" ||
      pyContains text "sweating cycles") ||
     (pyContains text "body ache" || pyContains text "headache" ||
      pyContains text "weakness"))

/-- Firing condition of spec rule 5 (dengue, source lines 227-228). -/
def specRule5Fires (input_text : String) : Bool :=
  let text := pyLower input_text
  pyContains text "fever" &&
    (pyContains text "platelet" || pyContains text "joint pain" ||
     pyContains text "eye pain")

/-- Firing condition of spec rule 6 (asthma vs infection, source lines
233-235): a breath-related term and no "fever". -/
def specRule6Fires (input_text : String) : Bool :=
  let text := pyLower input_text
  (pyContains text "breath" || pyContains text "wheezing" ||
   pyContains text "tight chest") && !pyContains text "fever"

/-- Firing condition of spec rule 7 (stomach/food, source lines 240-243):
the outer guard alone, since both inner branches return a label. -/
def specRule7Fires (input_text : String) : Bool :=
  let text := pyLower input_text
  pyContains text "vomit" || pyContains text "nausea" ||
  pyContains text "loose motion" || pyContains text "diarrhea"

/-- Firing condition of spec rule 8 (headache, source lines 248-252):
"headache" plus either the migraine sub-pattern or "fever". -/
def specRule8Fires (input_text : String) : Bool :=
  let text := pyLower input_text
  pyContains text "headache" &&
    ((pyContains text "light" || pyContains text "noise" ||
      pyContains text "dark room" || pyContains text "throbbing") ||
     pyContains text "fever")

/-- Disjunction of the firing conditions of the spec rules 1-8. -/
def anySpecRuleFires (input_text prediction : String) : Bool :=
  specRule1Fires input_text || specRule2Fires input_text prediction ||
  specRule3Fires input_text || specRule4Fires input_text ||
  specRule5Fires input_text || specRule6Fires input_text ||
  specRule7Fires input_text || specRule8Fires input_text

/-- Firing condition of the JOINT & MUSCLE block of the source (lines
257-261), a rule absent from the spec list: a joint-related term plus
either "morning"/"chronic" or "fever". -/
def jointMuscleRuleFires (input_text : String) : Bool :=
  let text := pyLower input_text
  (pyContains text "joint pain" || pyContains text "swelling" ||
   pyContains text "stiffness") &&
  ((pyContains text "morning" || pyContains text "chronic") ||
   pyContains text "fever")

/-- The Boolean skeleton of `apply_medical_logic`: the same cascade of
guarded returns with the guards abstracted.  `c7i` is the inner (no-op)
jaundice sub-condition and `c12i` the inner "fever" test of the stomach
block. -/
def logicChain (c1 c2 c3 c4 c5 c6 c7 c7i c8 c9 c10 c11 c12 c12i c13 c14 c15 c16 : Bool)
    (prediction : String) : String :=
  if c1 then "bronchial asthma"
  else if c2 then "viral fever"
  else if c3 then "viral fever"
  else if c4 then "stomach infection"
  else if c5 then "fungal infection"
  else if c6 then "bronchial asthma"
  else if c7 then (if c7i then "jaundice" else "jaundice")
  else if c8 then "malaria"
  else if c9 then "viral fever"
  else if c10 then "dengue"
  else if c11 then "bronchial asthma"
  else if c12 then (if c12i then "stomach infection" else "food poisoning")
  else if c13 then "migraine"
  else if c14 then "viral fever"
  else if c15 then "arthritis"
  else if c16 then "viral fever"
  else prediction

/-- The ten override labels that occur in the `return` statements of
`_apply_medical_logic`. -/
def diagnosisLabels : List String :=
  ["bronchial asthma", "viral fever", "stomach infection", "fungal infection",
   "jaundice", "malaria", "dengue", "food poisoning", "migraine", "arthritis"]

/-- The advice database `self.advice_db` of `SymptomPredictor.__init__`
(src/ai_service/ai_engine.py lines 57-149), in source order. -/
def advice_db : List (String × String) :=
  [("fungal infection",
    "Keep the affected area clean and completely dry. " ++
    "Avoid sharing towels, clothes, or footwear. " ++
    "Wear loose, breathable cotton clothing. " ++
    "Do not scratch the area, as it can spread the infection. " ++
    "If symptoms persist or worsen, consult a dermatologist."),
   ("allergy",
    "Identify and avoid known allergens such as dust, pollen, or pet dander. " ++
    "Keep windows closed during high pollen seasons. " ++
    "Use masks in polluted environments. " ++
    "Over-the-counter antihistamines may help, but consult a doctor if symptoms are severe."),
   ("malaria",
    "Seek medical attention immediately for confirmation through blood tests. " ++
    "Rest adequately and drink plenty of fluids to prevent dehydration. " ++
    "Avoid self-medication. " ++
    "Use mosquito nets and repellents to prevent further bites."),
   ("jaundice",
    "Drink plenty of boiled or filtered water. " ++
    "Eat easily digestible, low-fat foods. " ++
    "Avoid alcohol and oily or spicy foods completely. " ++
    "Take adequate rest and follow up with liver function tests as advised by a doctor."),
   ("stomach infection",
    "Stay hydrated by drinking ORS or electrolyte solutions. " ++
    "Eat bland foods like rice, bananas, yogurt, and toast. " ++
    "Avoid spicy, oily, or outside food. " ++
    "If vomiting or diarrhea persists, seek medical help."),
   ("bronchial asthma",
    "Keep prescribed inhalers accessible at all times. " ++
    "Avoid known triggers such as smoke, dust, cold air, and strong odors. " ++
    "Practice breathing exercises if advised. " ++
    "Seek emergency care if breathlessness suddenly worsens."),
   ("cervical spondylosis",
    "Maintain proper posture while sitting and using electronic devices. " ++
    "Avoid prolonged screen time without breaks. " ++
    "Gentle neck stretching and physiotherapy exercises may help. " ++
    "Use a firm pillow and avoid sudden neck movements."),
   ("migraine",
    "Rest in a dark, quiet room during an attack. " ++
    "Avoid loud noise, bright lights, and screen exposure. " ++
    "Stay well hydrated and do not skip meals. " ++
    "Identify and avoid personal triggers such as stress or lack of sleep."),
   ("arthritis",
    "Apply warm compresses to relieve stiffness and cold packs for swelling. " ++
    "Engage in gentle joint movements to maintain flexibility. " ++
    "Maintain a healthy weight to reduce joint stress. " ++
    "Avoid heavy lifting or overexertion."),
   ("viral fever",
    "Take complete rest and stay hydrated. " ++
    "Monitor body temperature regularly. " ++
    "Eat light, nutritious food. " ++
    "Avoid antibiotics unless prescribed by a doctor."),
   ("dengue",
    "Seek immediate medical supervision and regular blood tests. " ++
    "Drink plenty of fluids such as water, coconut water, and ORS. " ++
    "Avoid painkillers like ibuprofen or aspirin. " ++
    "Watch for warning signs like bleeding or severe abdominal pain."),
   ("typhoid",
    "Complete the full course of prescribed medication. " ++
    "Maintain strict hygiene and drink safe water. " ++
    "Eat soft, low-fiber foods during recovery. " ++
    "Avoid street food until fully recovered."),
   ("covid-19",
    "Isolate yourself to prevent spread. " ++
    "Monitor oxygen levels and temperature regularly. " ++
    "Stay hydrated and get adequate rest. " ++
    "Seek medical attention if breathing difficulty develops."),
   ("food poisoning",
    "Avoid solid food temporarily if vomiting is severe. " ++
    "Sip ORS or clear fluids frequently. " ++
    "Avoid dairy, caffeine, and alcohol. " ++
    "Seek medical care if symptoms persist beyond 24 hours."),
   ("dehydration",
    "Increase fluid intake immediately using ORS or electrolyte drinks. " ++
    "Avoid excessive heat exposure. " ++
    "Eat water-rich fruits. " ++
    "Seek medical help if dizziness or confusion occurs.")]

/-- The three opener templates of `_format_polite_response` (source lines
280-284), as functions of the title-cased display name. -/
def openerTemplates (display_name : String) : List String :=
  ["Based on your symptoms, it looks like you might have **" ++ display_name ++ "**.",
   "I have analyzed your symptoms. The indicators point towards **" ++ display_name ++ "**.",
   "It seems you are experiencing symptoms of **" ++ display_name ++ "**."]

/-- The response composer `SymptomPredictor._format_polite_response`
(src/ai_service/ai_engine.py lines 270-289).  `db` is the advice table
read from the predictor object, and `choice` the index drawn by
`random.choice` over the three templates. -/
def format_polite_response (db : List (String × String)) (choice : Fin 3)
    (diagnosis : String) : String :=
  let d := pyLower (pyStrip diagnosis)
  let advice := (db.lookup d).getD "Please consult a general physician for a detailed checkup."
  let display_name := pyTitle d
  let chosen_opener := (openerTemplates display_name).getD choice.val ""
  chosen_opener ++ "\n\n💡 **Dr. AI Recommends:**\n" ++ advice

/-- The constant `MAX_LEN` of the source (line 10). -/
def MAX_LEN : Nat := 100

/-- The tokenizer `SymptomPredictor._encode_text` (source lines 176-177): lower-case,
split on whitespace, map each word through `word2idx` with the unknown
token id (itself defaulted to 0) as fallback. -/
def encode_text (word2idx : List (String × Nat)) (text : String) : List Nat :=
  (pySplit (pyLower text)).map fun w =>
    ((word2idx.lookup w).getD ((word2idx.lookup "<unk>").getD 0))

/-- The greedy autoregressive decode loop of `SymptomPredictor.predict`
(source lines 307-313): at most `fuel` iterations; each step asks the
model oracle `next` for the argmax token of the current target sequence;
on the end token the loop stops WITHOUT appending it, otherwise the token
is appended.  A model failure aborts the loop with the error. -/
def greedyDecode (next : List Nat → Except String Nat) (eos_idx : Nat) :
    Nat → List Nat → Except String (List Nat)
  | 0, tgt => Except.ok tgt
  | n + 1, tgt =>
    match next tgt with
    | Except.error e => Except.error e
    | Except.ok next_token =>
      if next_token = eos_idx then Except.ok tgt
      else greedyDecode next eos_idx n (tgt ++ [next_token])

/-- The process-wide state loaded once by `_load_model`: vocabulary in
both directions, the advice table, and the (opaque) model weights. -/
structure PredictorState where
  word2idx : List (String × Nat)
  idx2word : List (Nat × String)
  advice_db : List (String × String)
  weights : List Int

/-- The result object of `predict`: either the success dictionary
`{original, corrected, diagnosis}` or the error dictionary `{error}`. -/
inductive PredictResult where
  | ok (original corrected diagnosis : String)
  | error (msg : String)
deriving DecidableEq

/-- The request handler `SymptomPredictor.predict` (src/ai_service/ai_engine.py lines 291-330).
`correct` is the TextBlob spelling corrector and `modelNext` the
transformer forward pass plus argmax (applied to the weights, the padded
source sequence and the current target sequence), both fallible; any
failure is caught at the boundary and becomes a `PredictResult.error`.
The state is threaded through and returned so that its preservation is a
statement, not a convention. -/
def predict (st : PredictorState) (correct : String → Except String String)
    (modelNext : List Int → List Nat → List Nat → Except String Nat)
    (choice : Fin 3) (sentence : String) : PredictResult × PredictorState :=
  match correct sentence with
  | Except.error e => (PredictResult.error e, st)
  | Except.ok corrected =>
    let src_tokens := (encode_text st.word2idx corrected).take (MAX_LEN - 2)
    let sos_idx := (st.word2idx.lookup "<sos>").getD 1
    let eos_idx := (st.word2idx.lookup "<eos>").getD 2
    let pad_idx := (st.word2idx.lookup "<pad>").getD 0
    let src_padded := [sos_idx] ++ src_tokens ++ [eos_idx] ++
      List.replicate (MAX_LEN - src_tokens.length - 2) pad_idx
    match greedyDecode (modelNext st.weights src_padded) eos_idx MAX_LEN [sos_idx] with
    | Except.error e => (PredictResult.error e, st)
    | Except.ok tgt =>
      let raw_prediction :=
        String.intercalate " " ((tgt.drop 1).map fun idx => (st.idx2word.lookup idx).getD "")
      let final_diagnosis := apply_medical_logic corrected raw_prediction
      let polite_response := format_polite_response st.advice_db choice final_diagnosis
      (PredictResult.ok sentence corrected polite_response, st)

/-! ## Auxiliary lemmas -/

/-- A substring of `b` is a substring of `a ++ b`. -/
theorem containsSubstring_append_right (a : List Char) {b n : List Char}
    (h : containsSubstring b n = true) : containsSubstring (a ++ b) n = true := by
  induction a with
  | nil => simpa using h
  | cons c t ih => simp [containsSubstring, ih]

/-- Mapping a function over both lists preserves `List.isPrefixOf`. -/
theorem isPrefixOf_map (f : Char → Char) :
    ∀ n h : List Char, n.isPrefixOf h = true →
      (n.map f).isPrefixOf (h.map f) = true := by
  intro n
  induction n with
  | nil => intro h _; simp [List.isPrefixOf]
  | cons a as ih =>
    intro h hp
    cases h with
    | nil => simp [List.isPrefixOf] at hp
    | cons b bs =>
      simp only [List.isPrefixOf, Bool.and_eq_true, beq_iff_eq] at hp
      obtain ⟨rfl, hrest⟩ := hp
      simp [List.isPrefixOf, ih bs hrest]

/-- Mapping a function over both lists preserves `containsSubstring`. -/
theorem containsSubstring_map (f : Char → Char) :
    ∀ h n : List Char, containsSubstring h n = true →
      containsSubstring (h.map f) (n.map f) = true := by
  intro h
  induction h with
  | nil =>
    intro n hn
    simp only [containsSubstring, List.isEmpty_iff] at hn
    subst hn
    simp [containsSubstring]
  | cons c t ih =>
    intro n hn
    simp only [containsSubstring, Bool.or_eq_true] at hn ⊢
    rcases hn with hp | hc
    · exact Or.inl (isPrefixOf_map f n (c :: t) hp)
    · exact Or.inr (ih n hc)

/-- If `s` contains an already-lowercase needle `n`, then `pyLower s`
still contains `n` (the source lowercases the text before matching). -/
theorem pyContains_pyLower {s n : String} (hn : pyLower n = n)
    (h : pyContains s n = true) : pyContains (pyLower s) n = true := by
  have hmap := containsSubstring_map Char.toLower s.data n.data h
  have hnd : n.data.map Char.toLower = n.data := congrArg String.data hn
  rw [hnd] at hmap
  exact hmap

/-- String-level variant of `containsSubstring_append_right`. -/
theorem pyContains_append (a b n : String) (h : pyContains b n = true) :
    pyContains (a ++ b) n = true := by
  have := containsSubstring_append_right a.data (b := b.data) (n := n.data) h
  simpa [pyContains] using this

/-- The left disjunct of a false disjunction is false. -/
theorem orFalseLeft {a b : Bool} (h : (a || b) = false) : a = false := by
  cases a <;> simp_all

/-- The right disjunct of a false disjunction is false. -/
theorem orFalseRight {a b : Bool} (h : (a || b) = false) : b = false := by
  cases a <;> simp_all

/-- A guard that fails on a disjunction fails on each disjunct. -/
theorem andFalseDistrib {s a b : Bool} (h : (s && (a || b)) = false) :
    (s && a) = false ∧ (s && b) = false := by
  cases s <;> cases a <;> cases b <;> simp_all

/-! ## The Boolean skeleton of the correction engine -/

/-- The function `apply_medical_logic` is definitionally its Boolean skeleton applied
to the guards of the source, spelled out. -/
theorem apply_medical_logic_eq_chain (input_text prediction : String) :
    apply_medical_logic input_text prediction =
      logicChain
        (pyContains (pyLower input_text) "chest pain" ||
         pyContains (pyLower input_text) "severe breath" ||
         pyContains (pyLower input_text) "unable to breathe")
        (pyContains (pyLower input_text) "unconscious" ||
         pyContains (pyLower input_text) "faint" ||
         pyContains (pyLower input_text) "seizure")
        (pyContains (pyLower prediction) "spondylosis" &&
         (pyContains (pyLower input_text) "fever" ||
          pyContains (pyLower input_text) "temperature" ||
          pyContains (pyLower input_text) "chills"))
        (pyContains (pyLower prediction) "spondylosis" &&
         (pyContains (pyLower input_text) "vomit" ||
          pyContains (pyLower input_text) "nausea" ||
          pyContains (pyLower input_text) "diarrhea" ||
          pyContains (pyLower input_text) "loose motion"))
        (pyContains (pyLower prediction) "spondylosis" &&
         (pyContains (pyLower input_text) "itch" &&
          pyContains (pyLower input_text) "rash"))
        (pyContains (pyLower prediction) "spondylosis" &&
         pyContains (pyLower input_text) "breath")
        ((pyContains (pyLower input_text) "yellow" &&
          pyContains (pyLower input_text) "skin") ||
         pyContains (pyLower input_text) "yellow eyes")
        (pyContains (pyLower input_text) "urine" ||
         pyContains (pyLower input_text) "dark urine" ||
         pyContains (pyLower input_text) "fatigue" ||
         pyContains (pyLower input_text) "abdominal pain")
        (pyContains (pyLower input_text) "fever" &&
         (pyContains (pyLower input_text) "shiver" ||
          pyContains (pyLower input_text) "chills" ||
          pyContains (pyLower input_text) "sweating cycles"))
        (pyContains (pyLower input_text) "fever" &&
         (pyContains (pyLower input_text) "body ache" ||
          pyContains (pyLower input_text) "headache" ||
          pyContains (pyLower input_text) "weakness"))
        (pyContains (pyLower input_text) "fever" &&
         (pyContains (pyLower input_text) "platelet" ||
          pyContains (pyLower input_text) "joint pain" ||
          pyContains (pyLower input_text) "eye pain"))
        ((pyContains (pyLower input_text) "breath" ||
          pyContains (pyLower input_text) "wheezing" ||
          pyContains (pyLower input_text) "tight chest") &&
         !pyContains (pyLower input_text) "fever")
        (pyContains (pyLower input_text) "vomit" ||
         pyContains (pyLower input_text) "nausea" ||
         pyContains (pyLower input_text) "loose motion" ||
         pyContains (pyLower input_text) "diarrhea")
        (pyContains (pyLower input_text) "fever")
        (pyContains (pyLower input_text) "headache" &&
         (pyContains (pyLower input_text) "light" ||
          pyContains (pyLower input_text) "noise" ||
          pyContains (pyLower input_text) "dark room" ||
          pyContains (pyLower input_text) "throbbing"))
        (pyContains (pyLower input_text) "headache" &&
         pyContains (pyLower input_text) "fever")
        ((pyContains (pyLower input_text) "joint pain" ||
          pyContains (pyLower input_text) "swelling" ||
          pyContains (pyLower input_text) "stiffness") &&
         (pyContains (pyLower input_text) "morning" ||
          pyContains (pyLower input_text) "chronic"))
        ((pyContains (pyLower input_text) "joint pain" ||
          pyContains (pyLower input_text) "swelling" ||
          pyContains (pyLower input_text) "stiffness") &&
         pyContains (pyLower input_text) "fever")
        prediction := rfl

/-- Whatever the guards, the skeleton produces the fallback argument or
one of the ten labels. -/
theorem logicChain_range (c1 c2 c3 c4 c5 c6 c7 c7i c8 c9 c10 c11 c12 c12i c13 c14 c15 c16 : Bool)
    (p : String) :
    logicChain c1 c2 c3 c4 c5 c6 c7 c7i c8 c9 c10 c11 c12 c12i c13 c14 c15 c16 p = p ∨
    logicChain c1 c2 c3 c4 c5 c6 c7 c7i c8 c9 c10 c11 c12 c12i c13 c14 c15 c16 p ∈
      diagnosisLabels := by
  have hba : ("bronchial asthma" : String) ∈ diagnosisLabels := by decide
  have hvf : ("viral fever" : String) ∈ diagnosisLabels := by decide
  have hsi : ("stomach infection" : String) ∈ diagnosisLabels := by decide
  have hfu : ("fungal infection" : String) ∈ diagnosisLabels := by decide
  have hja : ("jaundice" : String) ∈ diagnosisLabels := by decide
  have hma : ("malaria" : String) ∈ diagnosisLabels := by decide
  have hde : ("dengue" : String) ∈ diagnosisLabels := by decide
  have hfp : ("food poisoning" : String) ∈ diagnosisLabels := by decide
  have hmi : ("migraine" : String) ∈ diagnosisLabels := by decide
  have har : ("arthritis" : String) ∈ diagnosisLabels := by decide
  cases c1
  · cases c2
    · cases c3
      · cases c4
        · cases c5
          · cases c6
            · cases c7
              · cases c8
                · cases c9
                  · cases c10
                    · cases c11
                      · cases c12
                        · cases c13
                          · cases c14
                            · cases c15
                              · cases c16
                                · exact Or.inl rfl
                                · exact Or.inr hvf
                              · exact Or.inr har
                            · exact Or.inr hvf
                          · exact Or.inr hmi
                        · cases c12i
                          · exact Or.inr hfp
                          · exact Or.inr hsi
                      · exact Or.inr hba
                    · exact Or.inr hde
                  · exact Or.inr hvf
                · exact Or.inr hma
              · cases c7i
                · exact Or.inr hja
                · exact Or.inr hja
            · exact Or.inr hba
          · exact Or.inr hfu
        · exact Or.inr hsi
      · exact Or.inr hvf
    · exact Or.inr hvf
  · exact Or.inr hba

/-- With every guard false the skeleton returns the fallback argument. -/
theorem logicChain_fallback (c7i c12i : Bool) (p : String) :
    logicChain false false false false false false false c7i false false false false false c12i
      false false false false p = p := rfl

/-- With the six earlier guards false and the jaundice guard true the
skeleton returns "jaundice", whatever the inner sub-condition and the
later guards. -/
theorem logicChain_jaundice (c7i c8 c9 c10 c11 c12 c12i c13 c14 c15 c16 : Bool) (p : String) :
    logicChain false false false false false false true c7i c8 c9 c10 c11 c12 c12i c13 c14 c15 c16
      p = "jaundice" := by
  cases c7i <;> rfl

/-! ## Claims about the correction engine -/

/-- C1: any input text containing "chest pain" is forced to
"bronchial asthma" by the first safety override, whatever the raw model
output; in particular a jaundice phrase in the same text cannot win,
since rule 1 is checked before rule 3. -/
theorem chest_pain_forces_bronchial_asthma (input_text prediction : String)
    (h : pyContains input_text "chest pain" = true) :
    apply_medical_logic input_text prediction = "bronchial asthma" := by
  have hl : pyContains (pyLower input_text) "chest pain" = true :=
    pyContains_pyLower (by decide) h
  simp [apply_medical_logic, hl]

/-- Witness for C1, at a text containing both the safety-override phrase
"chest pain" and the jaundice phrase "yellow skin", with raw model output
"jaundice": the safety override wins. -/
theorem chest_pain_forces_bronchial_asthma_witness :
    pyContains "chest pain and yellow skin" "chest pain" = true ∧
    apply_medical_logic "chest pain and yellow skin" "jaundice" = "bronchial asthma" :=
  ⟨by decide,
   chest_pain_forces_bronchial_asthma "chest pain and yellow skin" "jaundice" (by decide)⟩

/-- C9: the correction engine only ever returns the raw prediction itself
or one of the ten fixed labels; it never fabricates any other string. -/
theorem apply_medical_logic_range (input_text prediction : String) :
    apply_medical_logic input_text prediction = prediction ∨
    apply_medical_logic input_text prediction ∈ diagnosisLabels := by
  rw [apply_medical_logic_eq_chain]
  apply logicChain_range

/-- C2 counterexample: the input "joint pain since morning" with raw
prediction "typhoid" matches none of the spec rules 1-8, yet the engine
does not return the raw prediction: the source has a JOINT & MUSCLE block
absent from the spec rule list, which returns "arthritis" here. -/
theorem spec_rule_list_incomplete :
    anySpecRuleFires "joint pain since morning" "typhoid" = false ∧
    apply_medical_logic "joint pain since morning" "typhoid" = "arthritis" ∧
    apply_medical_logic "joint pain since morning" "typhoid" ≠ "typhoid" := by
  refine ⟨by decide, by decide, by decide⟩

/-- C2 (amended): when none of the spec rules 1-8 fires AND the source's
joint/muscle rule (joint pain, swelling or stiffness combined with
morning, chronic or fever) also does not fire, the engine returns the raw
prediction unchanged. -/
theorem no_rule_fires_returns_prediction (input_text prediction : String)
    (h : anySpecRuleFires input_text prediction = false)
    (hj : jointMuscleRuleFires input_text = false) :
    apply_medical_logic input_text prediction = prediction := by
  have h0 : (specRule1Fires input_text || specRule2Fires input_text prediction ||
      specRule3Fires input_text || specRule4Fires input_text ||
      specRule5Fires input_text || specRule6Fires input_text ||
      specRule7Fires input_text || specRule8Fires input_text) = false := h
  have hr8 := orFalseRight h0
  have ha := orFalseLeft h0
  have hr7 := orFalseRight ha
  have hb := orFalseLeft ha
  have hr6 := orFalseRight hb
  have hc := orFalseLeft hb
  have hr5 := orFalseRight hc
  have hd := orFalseLeft hc
  have hr4 := orFalseRight hd
  have he := orFalseLeft hd
  have hr3 := orFalseRight he
  have hf := orFalseLeft he
  have hr2 := orFalseRight hf
  have hr1 := orFalseLeft hf
  have g1 : ((pyContains (pyLower input_text) "chest pain" ||
      pyContains (pyLower input_text) "severe breath" ||
      pyContains (pyLower input_text) "unable to breathe") ||
      (pyContains (pyLower input_text) "unconscious" ||
       pyContains (pyLower input_text) "faint" ||
       pyContains (pyLower input_text) "seizure")) = false := hr1
  have hc1 := orFalseLeft g1
  have hc2 := orFalseRight g1
  have g2 : (pyContains (pyLower prediction) "spondylosis" &&
      ((pyContains (pyLower input_text) "fever" ||
        pyContains (pyLower input_text) "temperature" ||
        pyContains (pyLower input_text) "chills") ||
       (pyContains (pyLower input_text) "vomit" ||
        pyContains (pyLower input_text) "nausea" ||
        pyContains (pyLower input_text) "diarrhea" ||
        pyContains (pyLower input_text) "loose motion") ||
       (pyContains (pyLower input_text) "itch" &&
        pyContains (pyLower input_text) "rash") ||
       pyContains (pyLower input_text) "breath")) = false := hr2
  obtain ⟨g2a, hc6⟩ := andFalseDistrib g2
  obtain ⟨g2b, hc5⟩ := andFalseDistrib g2a
  obtain ⟨hc3, hc4⟩ := andFalseDistrib g2b
  have hc7 : ((pyContains (pyLower input_text) "yellow" &&
      pyContains (pyLower input_text) "skin") ||
      pyContains (pyLower input_text) "yellow eyes") = false := hr3
  have g4 : (pyContains (pyLower input_text) "fever" &&
      ((pyContains (pyLower input_text) "shiver" ||
        pyContains (pyLower input_text) "chills" ||
        pyContains (pyLower input_text) "sweating cycles") ||
       (pyContains (pyLower input_text) "body ache" ||
        pyContains (pyLower input_text) "headache" ||
        pyContains (pyLower input_text) "weakness"))) = false := hr4
  obtain ⟨hc8, hc9⟩ := andFalseDistrib g4
  have hc10 : (pyContains (pyLower input_text) "fever" &&
      (pyContains (pyLower input_text) "platelet" ||
       pyContains (pyLower input_text) "joint pain" ||
       pyContains (pyLower input_text) "eye pain")) = false := hr5
  have hc11 : ((pyContains (pyLower input_text) "breath" ||
      pyContains (pyLower input_text) "wheezing" ||
      pyContains (pyLower input_text) "tight chest") &&
      !pyContains (pyLower input_text) "fever") = false := hr6
  have hc12 : (pyContains (pyLower input_text) "vomit" ||
      pyContains (pyLower input_text) "nausea" ||
      pyContains (pyLower input_text) "loose motion" ||
      pyContains (pyLower input_text) "diarrhea") = false := hr7
  have g8 : (pyContains (pyLower input_text) "headache" &&
      ((pyContains (pyLower input_text) "light" ||
        pyContains (pyLower input_text) "noise" ||
        pyContains (pyLower input_text) "dark room" ||
        pyContains (pyLower input_text) "throbbing") ||
       pyContains (pyLower input_text) "fever")) = false := hr8
  obtain ⟨hc13, hc14⟩ := andFalseDistrib g8
  have gj : ((pyContains (pyLower input_text) "joint pain" ||
      pyContains (pyLower input_text) "swelling" ||
      pyContains (pyLower input_text) "stiffness") &&
      ((pyContains (pyLower input_text) "morning" ||
        pyContains (pyLower input_text) "chronic") ||
       pyContains (pyLower input_text) "fever")) = false := hj
  obtain ⟨hc15, hc16⟩ := andFalseDistrib gj
  rw [apply_medical_logic_eq_chain, hc1, hc2, hc3, hc4, hc5, hc6, hc7, hc8, hc9,
    hc10, hc11, hc12, hc13, hc14, hc15, hc16]
  exact logicChain_fallback _ _ prediction

/-- Witness for the amended C2: a vague sentence matching no rule at all
passes the raw prediction "typhoid" through unchanged. -/
theorem no_rule_fires_returns_prediction_witness :
    (anySpecRuleFires "i feel very tired" "typhoid" = false ∧
     jointMuscleRuleFires "i feel very tired" = false) ∧
    apply_medical_logic "i feel very tired" "typhoid" = "typhoid" :=
  ⟨⟨by decide, by decide⟩,
   no_rule_fires_returns_prediction "i feel very tired" "typhoid" (by decide) (by decide)⟩

/-- C3 counterexample: on the spec scenario input the engine returns
"stomach infection", not "food poisoning": the substring test finds
"fever" inside "no fever", so the stomach rule takes its fever branch. -/
theorem scenario3_counterexample :
    apply_medical_logic "vomiting and diarrhea, no fever" "typhoid" = "stomach infection" ∧
    apply_medical_logic "vomiting and diarrhea, no fever" "typhoid" ≠ "food poisoning" := by
  refine ⟨by decide, by decide⟩

/-- C3 (amended): on the input "vomiting and diarrhea, no fever" the
final diagnosis is "stomach infection" for every raw model output that
does not contain "spondylosis" (a spondylosis-containing raw output gives
"viral fever" instead, again because "no fever" contains "fever"). -/
theorem scenario3_amended (prediction : String)
    (h : pyContains (pyLower prediction) "spondylosis" = false) :
    apply_medical_logic "vomiting and diarrhea, no fever" prediction = "stomach infection" := by
  rw [apply_medical_logic_eq_chain, h]
  rfl

/-- Witness for the amended C3 at the raw output "typhoid". -/
theorem scenario3_amended_witness :
    pyContains (pyLower "typhoid") "spondylosis" = false ∧
    apply_medical_logic "vomiting and diarrhea, no fever" "typhoid" = "stomach infection" :=
  ⟨by decide, scenario3_amended "typhoid" (by decide)⟩

/-- C4: when the text contains ("yellow" and "skin") or "yellow eyes" and
neither safety override nor the spondylosis safeguard fires, the engine
returns "jaundice" whatever the raw model output; the inner sub-condition
on urine/fatigue/abdominal pain is a no-op since both branches return
"jaundice" (`logicChain_jaundice` holds for both values of `c7i`). -/
theorem jaundice_rule (input_text prediction : String)
    (hy : (pyContains input_text "yellow" && pyContains input_text "skin" ||
           pyContains input_text "yellow eyes") = true)
    (h1 : specRule1Fires input_text = false)
    (h2 : specRule2Fires input_text prediction = false) :
    apply_medical_logic input_text prediction = "jaundice" := by
  have hy' : (pyContains input_text "yellow" = true ∧ pyContains input_text "skin" = true) ∨
      pyContains input_text "yellow eyes" = true := by
    simpa using hy
  have hc7 : ((pyContains (pyLower input_text) "yellow" &&
      pyContains (pyLower input_text) "skin") ||
      pyContains (pyLower input_text) "yellow eyes") = true := by
    rcases hy' with ⟨ha, hb⟩ | hcy
    · simp [pyContains_pyLower (by decide) ha, pyContains_pyLower (by decide) hb]
    · simp [pyContains_pyLower (by decide) hcy]
  have g1 : ((pyContains (pyLower input_text) "chest pain" ||
      pyContains (pyLower input_text) "severe breath" ||
      pyContains (pyLower input_text) "unable to breathe") ||
      (pyContains (pyLower input_text) "unconscious" ||
       pyContains (pyLower input_text) "faint" ||
       pyContains (pyLower input_text) "seizure")) = false := h1
  have hc1 := orFalseLeft g1
  have hc2 := orFalseRight g1
  have g2 : (pyContains (pyLower prediction) "spondylosis" &&
      ((pyContains (pyLower input_text) "fever" ||
        pyContains (pyLower input_text) "temperature" ||
        pyContains (pyLower input_text) "chills") ||
       (pyContains (pyLower input_text) "vomit" ||
        pyContains (pyLower input_text) "nausea" ||
        pyContains (pyLower input_text) "diarrhea" ||
        pyContains (pyLower input_text) "loose motion") ||
       (pyContains (pyLower input_text) "itch" &&
        pyContains (pyLower input_text) "rash") ||
       pyContains (pyLower input_text) "breath")) = false := h2
  obtain ⟨g2a, hc6⟩ := andFalseDistrib g2
  obtain ⟨g2b, hc5⟩ := andFalseDistrib g2a
  obtain ⟨hc3, hc4⟩ := andFalseDistrib g2b
  rw [apply_medical_logic_eq_chain, hc1, hc2, hc3, hc4, hc5, hc6, hc7]
  apply logicChain_jaundice

/-- Witness for C4, reproducing the spec end-to-end scenario 1. -/
theorem jaundice_rule_witness :
    ((pyContains "yellow skin and dark urine" "yellow" &&
      pyContains "yellow skin and dark urine" "skin" ||
      pyContains "yellow skin and dark urine" "yellow eyes") = true ∧
     specRule1Fires "yellow skin and dark urine" = false ∧
     specRule2Fires "yellow skin and dark urine" "typhoid" = false) ∧
    apply_medical_logic "yellow skin and dark urine" "typhoid" = "jaundice" :=
  ⟨⟨by decide, by decide, by decide⟩,
   jaundice_rule "yellow skin and dark urine" "typhoid" (by decide) (by decide) (by decide)⟩

/-! ## Claims about the decode loop and the request boundary -/

/-- Fuel-indexed invariant of the greedy decode loop: either the model
oracle fails, or the loop returns the initial target extended by at most
`fuel` tokens, none of which is the end token. -/
theorem greedyDecode_general (next : List Nat → Except String Nat) (eos_idx : Nat) :
    ∀ (fuel : Nat) (tgt : List Nat),
      (∃ e, greedyDecode next eos_idx fuel tgt = Except.error e) ∨
      (∃ rest, greedyDecode next eos_idx fuel tgt = Except.ok (tgt ++ rest) ∧
        rest.length ≤ fuel ∧ eos_idx ∉ rest) := by
  intro fuel
  induction fuel with
  | zero =>
    intro tgt
    right
    exact ⟨[], by simp [greedyDecode], by simp, by simp⟩
  | succ n ih =>
    intro tgt
    rcases hnext : next tgt with e | t
    · left
      exact ⟨e, by simp [greedyDecode, hnext]⟩
    · by_cases ht : t = eos_idx
      · right
        exact ⟨[], by simp [greedyDecode, hnext, ht], by simp, by simp⟩
      · rcases ih (tgt ++ [t]) with ⟨e, he⟩ | ⟨rest, hr, hlen, hmem⟩
        · left
          refine ⟨e, ?_⟩
          simp [greedyDecode, hnext, ht, he]
        · right
          refine ⟨t :: rest, ?_, ?_, ?_⟩
          · have hstep : greedyDecode next eos_idx (n + 1) tgt =
                greedyDecode next eos_idx n (tgt ++ [t]) := by
              simp [greedyDecode, hnext, ht]
            rw [hstep, hr]
            simp
          · simpa using Nat.succ_le_succ hlen
          · intro hmem2
            rcases List.mem_cons.mp hmem2 with rfl | hmem3
            · exact ht rfl
            · exact hmem hmem3

/-- C5: the decode loop runs for at most MAX_LEN = 100 steps: unless the
model oracle fails, the produced sequence is the start token followed by
at most 100 generated tokens, and the end token is never appended (the
loop stops as soon as it is selected). -/
theorem decode_loop_terminates (next : List Nat → Except String Nat) (eos_idx sos_idx : Nat) :
    (∃ e, greedyDecode next eos_idx MAX_LEN [sos_idx] = Except.error e) ∨
    (∃ rest, greedyDecode next eos_idx MAX_LEN [sos_idx] = Except.ok (sos_idx :: rest) ∧
      rest.length ≤ MAX_LEN ∧ eos_idx ∉ rest) := by
  rcases greedyDecode_general next eos_idx MAX_LEN [sos_idx] with ⟨e, he⟩ | ⟨rest, hr, hlen, hmem⟩
  · exact Or.inl ⟨e, he⟩
  · exact Or.inr ⟨rest, hr, hlen, hmem⟩

/-- C6: `predict` never lets a failure escape: the result is either an
error object carrying the message, or the success object with the
original sentence, the corrected sentence, and the composed message for
the corrected diagnosis of some raw prediction. -/
theorem predict_error_boundary (st : PredictorState) (correct : String → Except String String)
    (modelNext : List Int → List Nat → List Nat → Except String Nat)
    (choice : Fin 3) (sentence : String) :
    (∃ e, (predict st correct modelNext choice sentence).1 = PredictResult.error e) ∨
    (∃ corrected raw_prediction,
      correct sentence = Except.ok corrected ∧
      (predict st correct modelNext choice sentence).1 =
        PredictResult.ok sentence corrected
          (format_polite_response st.advice_db choice
            (apply_medical_logic corrected raw_prediction))) := by
  rcases hc : correct sentence with e | corrected
  · left
    exact ⟨e, by simp [predict, hc]⟩
  · simp only [predict, hc]
    split
    · left
      exact ⟨_, rfl⟩
    · right
      exact ⟨corrected, _, rfl, rfl⟩

/-- C8: a call to `predict` returns the process-wide state (vocabulary in
both directions, advice table, model weights) unchanged. -/
theorem predict_preserves_state (st : PredictorState) (correct : String → Except String String)
    (modelNext : List Int → List Nat → List Nat → Except String Nat)
    (choice : Fin 3) (sentence : String) :
    (predict st correct modelNext choice sentence).2 = st := by
  rcases hc : correct sentence with e | corrected
  · simp [predict, hc]
  · simp only [predict, hc]
    split <;> rfl

/-! ## Claims about the response composer -/

set_option maxRecDepth 4000 in
/-- C7 counterexample: the label " malaria " has a lower-cased form that
is not a key of the advice table, yet the composer output for it does not
contain the generic fallback sentence: the source strips the label before
the lookup, so the malaria advice is found. -/
theorem advice_fallback_counterexample :
    List.lookup (pyLower " malaria ") advice_db = none ∧
    pyContains (format_polite_response advice_db (0 : Fin 3) " malaria ")
      "consult a general physician" = false := by
  refine ⟨by decide, by decide⟩

/-- C7 (amended): for every diagnosis label whose stripped and
lower-cased form is not a key of the advice table, the composer output
contains the generic "consult a general physician" sentence, whichever
opener template is chosen. -/
theorem advice_fallback (choice : Fin 3) (d : String)
    (h : List.lookup (pyLower (pyStrip d)) advice_db = none) :
    pyContains (format_polite_response advice_db choice d)
      "consult a general physician" = true := by
  simp only [format_polite_response]
  rw [h]
  exact pyContains_append _ _ _ (by decide)

/-- Witness for the amended C7 at the label "common cold", absent from
the advice table. -/
theorem advice_fallback_witness :
    List.lookup (pyLower (pyStrip "common cold")) advice_db = none ∧
    pyContains (format_polite_response advice_db (0 : Fin 3) "common cold")
      "consult a general physician" = true :=
  ⟨by decide, advice_fallback (0 : Fin 3) "common cold" (by decide)⟩

/-- C10: the composer is invariant under letter case and surrounding
whitespace: two labels with the same stripped, lower-cased form compose
to the same output, for any fixed opener choice, because the label is
normalized once and only the normalized form is used. -/
theorem composer_case_whitespace_invariant (choice : Fin 3) (d e : String)
    (h : pyLower (pyStrip d) = pyLower (pyStrip e)) :
    format_polite_response advice_db choice d =
      format_polite_response advice_db choice e := by
  simp only [format_polite_response]
  rw [h]

/-- Witness for C10: "  JAUNDICE " and "jaundice" compose identically. -/
theorem composer_case_whitespace_invariant_witness :
    pyLower (pyStrip "  JAUNDICE ") = pyLower (pyStrip "jaundice") ∧
    format_polite_response advice_db (0 : Fin 3) "  JAUNDICE " =
      format_polite_response advice_db (0 : Fin 3) "jaundice" :=
  ⟨by decide,
   composer_case_whitespace_invariant (0 : Fin 3) "  JAUNDICE " "jaundice" (by decide)⟩
